import Mathlib

/-
Verification of the cone-frustum geometry library (src/ConeFrustum.js).

The JavaScript code is shallowly embedded over the real numbers:
three.js `Vector3` becomes `Vec3` (a record of three reals), `Box3`
becomes `Box3` (min/max corners), and every method of `ConeFrustum`
and the ray intersector `Ray.prototype.intersectsConeFrustum` is
translated statement by statement.  JavaScript `undefined` returns are
modelled with `Option`; the truthiness-based default substitution
`x || d` on numbers is modelled by `jsOrNum`; object identity of the
`Vector3` arguments (needed for the aliasing claims) is modelled by a
small heap of allocated vectors at the end of the development.
-/

noncomputable section

/-- Three-component vector over the reals, standing in for three.js `Vector3`. -/
@[ext]
structure Vec3 where
  x : ℝ
  y : ℝ
  z : ℝ

/-- Componentwise vector addition (`Vector3.add` / `addVectors`). -/
def Vec3.add (a b : Vec3) : Vec3 := ⟨a.x + b.x, a.y + b.y, a.z + b.z⟩

/-- Componentwise vector subtraction (`Vector3.sub` / `subVectors`). -/
def Vec3.sub (a b : Vec3) : Vec3 := ⟨a.x - b.x, a.y - b.y, a.z - b.z⟩

/-- Scalar multiple of a vector (`Vector3.multiplyScalar`). -/
def Vec3.smul (c : ℝ) (v : Vec3) : Vec3 := ⟨c * v.x, c * v.y, c * v.z⟩

/-- Dot product (`Vector3.dot`). -/
def Vec3.dot (a b : Vec3) : ℝ := a.x * b.x + a.y * b.y + a.z * b.z

/-- Euclidean length (`Vector3.length`). -/
def Vec3.length (v : Vec3) : ℝ := Real.sqrt (v.dot v)

/-- three.js `Vector3.divideScalar(s)` is `multiplyScalar(1/s)`.  In the real
model `1/0 = 0`; in JavaScript `1/0` is `Infinity` (so dividing the zero
vector by zero produces NaN components) - noted where it matters. -/
def Vec3.divideScalar (v : Vec3) (s : ℝ) : Vec3 := Vec3.smul (1 / s) v

/-- three.js `Vector3.addScaledVector(w, s)`: the vector `v + s*w`. -/
def Vec3.addScaled (v w : Vec3) (s : ℝ) : Vec3 := v.add (Vec3.smul s w)

/-- three.js `Vector3.normalize()` is `divideScalar(length() || 1)`: a vector of
zero length is divided by `1`, i.e. left unchanged. -/
def Vec3.normalize (v : Vec3) : Vec3 :=
  v.divideScalar (if v.length = 0 then 1 else v.length)

/-- three.js `Vector3.equals`: exact componentwise comparison. -/
def Vec3.equalsV (a b : Vec3) : Bool :=
  decide (a.x = b.x) && decide (a.y = b.y) && decide (a.z = b.z)

/-- Componentwise minimum (`Vector3.min`). -/
def Vec3.minV (a b : Vec3) : Vec3 := ⟨min a.x b.x, min a.y b.y, min a.z b.z⟩

/-- Componentwise maximum (`Vector3.max`). -/
def Vec3.maxV (a b : Vec3) : Vec3 := ⟨max a.x b.x, max a.y b.y, max a.z b.z⟩

/-- Axis-aligned box given by its two corner points (three.js `Box3`). -/
structure Box3 where
  min : Vec3
  max : Vec3

/-- three.js `Box3.union`: componentwise min of the minima and max of the maxima. -/
def Box3.union (b1 b2 : Box3) : Box3 := ⟨b1.min.minV b2.min, b1.max.maxV b2.max⟩

/-- JavaScript `x || d` for a possibly-omitted numeric argument: an omitted
argument is `undefined` (falsy) and an explicit `0` is falsy too, so both
select the default `d`. -/
def jsOrNum (v : Option ℝ) (d : ℝ) : ℝ :=
  match v with
  | none => d
  | some x => if x = 0 then d else x

/-- The cone-frustum record: field values of a `ConeFrustum` instance. -/
structure ConeFrustum where
  base : Vec3
  axis : Vec3
  height : ℝ
  radius0 : ℝ
  radius1 : ℝ

/-- The `ConeFrustum` constructor (value level): `this.base = base || new
Vector3(); this.axis = axis || new Vector3(0,1,0); this.axis.normalize();
this.height = height || 1; this.radius0 = radius0 || 0; this.radius1 =
radius1 || 0`.  Omitted arguments are `none`. -/
def ConeFrustum.construct (baseArg axisArg : Option Vec3)
    (heightArg radius0Arg radius1Arg : Option ℝ) : ConeFrustum :=
  { base := baseArg.getD ⟨0, 0, 0⟩
    axis := (axisArg.getD ⟨0, 1, 0⟩).normalize
    height := jsOrNum heightArg 1
    radius0 := jsOrNum radius0Arg 0
    radius1 := jsOrNum radius1Arg 0 }

/-- `ConeFrustum.fromCapsule`: `axis = center1 - center0;
new ConeFrustum(center0, axis.clone().normalize(), axis.length(), radius0,
radius1)`. -/
def ConeFrustum.fromCapsule (center0 : Vec3) (radius0 : ℝ) (center1 : Vec3)
    (radius1 : ℝ) : ConeFrustum :=
  ConeFrustum.construct (some center0) (some (Vec3.sub center1 center0).normalize)
    (some (Vec3.sub center1 center0).length) (some radius0) (some radius1)

/-- `ConeFrustum.empty()`: `this.height === 0 || (this.radius0 === 0 &&
this.radius1 === 0)`. -/
def ConeFrustum.empty (f : ConeFrustum) : Bool :=
  decide (f.height = 0) || (decide (f.radius0 = 0) && decide (f.radius1 = 0))

/-- `ConeFrustum.equals(frustum)`: vectors compared by value, scalars by `===`. -/
def ConeFrustum.equals (self frustum : ConeFrustum) : Bool :=
  self.base.equalsV frustum.base && self.axis.equalsV frustum.axis &&
    decide (self.height = frustum.height) &&
    decide (self.radius0 = frustum.radius0) &&
    decide (self.radius1 = frustum.radius1)

/-- `ConeFrustum.copy(frustum)` assigns clones of `frustum`'s vectors and
copies of its scalars onto the receiver, and has no `return` statement, so
its JavaScript return value is `undefined`.  The first component is the
receiver's state after the call, the second the returned value
(`none` = `undefined`). -/
def ConeFrustum.copyJS (self frustum : ConeFrustum) :
    ConeFrustum × Option ConeFrustum :=
  ((fun _ => ⟨frustum.base, frustum.axis, frustum.height, frustum.radius0,
    frustum.radius1⟩ : ConeFrustum → ConeFrustum) self, none)

/-- `ConeFrustum.clone()` evaluates `new ConeFrustum().copy( this )`, i.e. it
returns whatever `copy` returns on a default-constructed receiver. -/
def ConeFrustum.clone (f : ConeFrustum) : Option ConeFrustum :=
  (ConeFrustum.copyJS (ConeFrustum.construct none none none none none) f).2

/-- Claim C3: `empty()` returns true exactly when the height is zero or both
radii are zero, and false otherwise. -/
theorem C3_empty_iff (f : ConeFrustum) :
    f.empty = true ↔ (f.height = 0 ∨ (f.radius0 = 0 ∧ f.radius1 = 0)) := by
  simp [ConeFrustum.empty]

/-- Claim C9: supplying an explicit numeric `0` for `height`, `radius0` or
`radius1` yields exactly the frustum obtained by omitting that argument
(the defaults 1, 0, 0 are substituted); in particular a constructor call
passing `height = 0` produces a frustum whose height field equals 1. -/
theorem C9_falsy_defaults (b a : Option Vec3) (hA r0A r1A : Option ℝ) :
    ConeFrustum.construct b a (some 0) r0A r1A =
      ConeFrustum.construct b a none r0A r1A ∧
    ConeFrustum.construct b a hA (some 0) r1A =
      ConeFrustum.construct b a hA none r1A ∧
    ConeFrustum.construct b a hA r0A (some 0) =
      ConeFrustum.construct b a hA r0A none ∧
    (ConeFrustum.construct b a (some 0) r0A r1A).height = 1 := by
  refine ⟨?_, ?_, ?_, ?_⟩ <;> simp [ConeFrustum.construct, jsOrNum]

/-- Claim C4 (code bug): `clone()` returns `undefined` for every frustum,
because `copy` has no `return` statement, so `new ConeFrustum().copy(this)`
evaluates to `undefined`; no frustum equal to the receiver is returned. -/
theorem C4_clone_undefined (f : ConeFrustum) : f.clone = none := rfl

/-- The squared length `v.dot v` is a sum of squares, hence nonnegative. -/
theorem Vec3.dot_self_nonneg (v : Vec3) : 0 ≤ v.dot v := by
  have hx := sq_nonneg v.x
  have hy := sq_nonneg v.y
  have hz := sq_nonneg v.z
  simp only [Vec3.dot]
  nlinarith

/-- A vector has length zero exactly when it is the zero vector. -/
theorem Vec3.length_eq_zero_iff (v : Vec3) :
    v.length = 0 ↔ v = (⟨0, 0, 0⟩ : Vec3) := by
  constructor
  · intro h
    have h0 : v.dot v = 0 := by
      have hle : v.dot v ≤ 0 := by
        have := h
        rw [Vec3.length, Real.sqrt_eq_zero'] at this
        exact this
      exact le_antisymm hle (Vec3.dot_self_nonneg v)
    have hx := sq_nonneg v.x
    have hy := sq_nonneg v.y
    have hz := sq_nonneg v.z
    simp only [Vec3.dot] at h0
    ext <;> simp <;> nlinarith
  · intro h
    subst h
    simp [Vec3.length, Vec3.dot]

/-- Length of a scalar multiple: `|c|` times the length. -/
theorem Vec3.length_smul (c : ℝ) (v : Vec3) :
    (Vec3.smul c v).length = |c| * v.length := by
  have h : (Vec3.smul c v).dot (Vec3.smul c v) = c ^ 2 * v.dot v := by
    simp only [Vec3.smul, Vec3.dot]
    ring
  rw [Vec3.length, h, Real.sqrt_mul (sq_nonneg c), Real.sqrt_sq_eq_abs,
    Vec3.length]

/-- Normalizing a vector of nonzero length produces a unit vector. -/
theorem Vec3.length_normalize (v : Vec3) (hv : v ≠ (⟨0, 0, 0⟩ : Vec3)) :
    v.normalize.length = 1 := by
  have hlen : v.length ≠ 0 := fun h => hv ((Vec3.length_eq_zero_iff v).mp h)
  have hpos : 0 < v.length := lt_of_le_of_ne (Real.sqrt_nonneg _) (Ne.symm hlen)
  rw [Vec3.normalize, Vec3.divideScalar, if_neg hlen, Vec3.length_smul,
    abs_of_pos (by positivity)]
  field_simp

/-- Claim C5, counterexample: supplying the zero vector as the axis leaves the
stored axis at zero length (three.js `normalize` divides by `length() || 1`),
which is not within `1e-6` of unit length. -/
theorem C5_zero_axis_counterexample :
    ¬ |(ConeFrustum.construct none (some ⟨0, 0, 0⟩) none none
        none).axis.length - 1| ≤ 1e-6 := by
  have h : (ConeFrustum.construct none (some ⟨0, 0, 0⟩) none none
      none).axis.length = 0 := by
    simp [ConeFrustum.construct, Vec3.normalize, Vec3.divideScalar, Vec3.smul,
      Vec3.length, Vec3.dot]
  rw [h]
  norm_num

/-- Claim C5 (amended): for every frustum produced by the constructor from a
supplied axis vector of nonzero length, the stored axis has unit length
(within tolerance `1e-6`), regardless of the magnitude of the supplied
vector. -/
theorem C5_axis_unit (b : Option Vec3) (v : Vec3) (hA r0A r1A : Option ℝ)
    (hv : v ≠ (⟨0, 0, 0⟩ : Vec3)) :
    |(ConeFrustum.construct b (some v) hA r0A r1A).axis.length - 1| ≤ 1e-6 := by
  have h : (ConeFrustum.construct b (some v) hA r0A r1A).axis.length = 1 := by
    simpa [ConeFrustum.construct] using Vec3.length_normalize v hv
  rw [h]
  norm_num

/-- Claim C5 witness at a concrete non-normalized axis. -/
theorem C5_axis_unit_witness :
    (⟨0, 3, 0⟩ : Vec3) ≠ (⟨0, 0, 0⟩ : Vec3) ∧
    |(ConeFrustum.construct none (some ⟨0, 3, 0⟩) none none
        none).axis.length - 1| ≤ 1e-6 :=
  ⟨by norm_num [Vec3.mk.injEq],
    C5_axis_unit none ⟨0, 3, 0⟩ none none none (by norm_num [Vec3.mk.injEq])⟩

/-- The difference of two distinct points is not the zero vector. -/
theorem Vec3.sub_ne_zero_of_ne (a b : Vec3) (h : b ≠ a) :
    Vec3.sub a b ≠ (⟨0, 0, 0⟩ : Vec3) := by
  intro hz
  apply h
  have hx : a.x - b.x = 0 := congrArg Vec3.x hz
  have hy : a.y - b.y = 0 := congrArg Vec3.y hz
  have hzc : a.z - b.z = 0 := congrArg Vec3.z hz
  ext <;> linarith

/-- A unit vector is left unchanged by `normalize`. -/
theorem Vec3.normalize_of_length_one (v : Vec3) (h : v.length = 1) :
    v.normalize = v := by
  rw [Vec3.normalize, Vec3.divideScalar, h, if_neg one_ne_zero]
  ext <;> simp [Vec3.smul]

/-- Claim C6, counterexample: with coincident centers, `axis.length()` is `0`,
so the constructor's `height || 1` substitutes the default and the height is
`1`, not the distance `0` between the centers. -/
theorem C6_coincident_centers_counterexample :
    (ConeFrustum.fromCapsule ⟨0, 0, 0⟩ 1 ⟨0, 0, 0⟩ 1).height ≠
      (Vec3.sub (⟨0, 0, 0⟩ : Vec3) ⟨0, 0, 0⟩).length := by
  have h0 : (Vec3.sub (⟨0, 0, 0⟩ : Vec3) ⟨0, 0, 0⟩).length = 0 := by
    simp [Vec3.sub, Vec3.length, Vec3.dot]
  have h1 : (ConeFrustum.fromCapsule ⟨0, 0, 0⟩ 1 ⟨0, 0, 0⟩ 1).height = 1 := by
    simp [ConeFrustum.fromCapsule, ConeFrustum.construct, jsOrNum, h0]
  rw [h0, h1]
  norm_num

/-- Claim C6 (amended): for distinct centers `c0 ≠ c1`, `fromCapsule(c0, r0,
c1, r1)` returns a frustum with `base = c0`, `height = |c1 - c0|`,
`axis = normalize(c1 - c0)`, `radius0 = r0` and `radius1 = r1`.  (With
coincident centers the zero length is falsy and the height defaults to 1.) -/
theorem C6_fromCapsule_fields (c0 c1 : Vec3) (r0 r1 : ℝ) (hne : c0 ≠ c1) :
    (ConeFrustum.fromCapsule c0 r0 c1 r1).base = c0 ∧
    (ConeFrustum.fromCapsule c0 r0 c1 r1).height = (Vec3.sub c1 c0).length ∧
    (ConeFrustum.fromCapsule c0 r0 c1 r1).axis = (Vec3.sub c1 c0).normalize ∧
    (ConeFrustum.fromCapsule c0 r0 c1 r1).radius0 = r0 ∧
    (ConeFrustum.fromCapsule c0 r0 c1 r1).radius1 = r1 := by
  have hsub : Vec3.sub c1 c0 ≠ (⟨0, 0, 0⟩ : Vec3) :=
    Vec3.sub_ne_zero_of_ne c1 c0 hne
  have hlen : (Vec3.sub c1 c0).length ≠ 0 :=
    fun h => hsub ((Vec3.length_eq_zero_iff _).mp h)
  refine ⟨rfl, ?_, ?_, ?_, ?_⟩
  · simp [ConeFrustum.fromCapsule, ConeFrustum.construct, jsOrNum, hlen]
  · simp only [ConeFrustum.fromCapsule, ConeFrustum.construct]
    exact Vec3.normalize_of_length_one _ (Vec3.length_normalize _ hsub)
  · rcases eq_or_ne r0 0 with h | h <;>
      simp [ConeFrustum.fromCapsule, ConeFrustum.construct, jsOrNum, h]
  · rcases eq_or_ne r1 0 with h | h <;>
      simp [ConeFrustum.fromCapsule, ConeFrustum.construct, jsOrNum, h]

/-- Claim C6 witness at concrete distinct centers. -/
theorem C6_fromCapsule_fields_witness :
    (⟨0, 0, 0⟩ : Vec3) ≠ (⟨0, 2, 0⟩ : Vec3) ∧
    ((ConeFrustum.fromCapsule ⟨0, 0, 0⟩ 1 ⟨0, 2, 0⟩ 3).base = ⟨0, 0, 0⟩ ∧
     (ConeFrustum.fromCapsule ⟨0, 0, 0⟩ 1 ⟨0, 2, 0⟩ 3).height =
       (Vec3.sub (⟨0, 2, 0⟩ : Vec3) ⟨0, 0, 0⟩).length ∧
     (ConeFrustum.fromCapsule ⟨0, 0, 0⟩ 1 ⟨0, 2, 0⟩ 3).axis =
       (Vec3.sub (⟨0, 2, 0⟩ : Vec3) ⟨0, 0, 0⟩).normalize ∧
     (ConeFrustum.fromCapsule ⟨0, 0, 0⟩ 1 ⟨0, 2, 0⟩ 3).radius0 = 1 ∧
     (ConeFrustum.fromCapsule ⟨0, 0, 0⟩ 1 ⟨0, 2, 0⟩ 3).radius1 = 3) :=
  ⟨by norm_num [Vec3.mk.injEq],
    C6_fromCapsule_fields ⟨0, 0, 0⟩ ⟨0, 2, 0⟩ 1 3 (by norm_num [Vec3.mk.injEq])⟩

/-- `ConeFrustum.getBoundingBox(target)`, statement by statement:
`d = (sqrt(axis.x^2), sqrt(axis.y^2), sqrt(axis.z^2))`, scaled by `radius0`
for the first corner pair, then rescaled by `divideScalar(radius0)` and
`multiplyScalar(radius1)` for the second pair around `base + axis*height`,
and the union of the two boxes is taken.  The first component is the
returned box, the second the target's state after the call (the code copies
the result into a non-null target).  Note the rescaling divides by
`radius0`: in JavaScript a zero `radius0` makes the second box NaN; in this
real model `1/0 = 0` collapses its half-extents to zero - either way it is
not `radius1` times the axis-magnitude vector. -/
def ConeFrustum.getBoundingBox (f : ConeFrustum) (target : Option Box3) :
    Box3 × Option Box3 :=
  let c := f.base
  let d : Vec3 := ⟨Real.sqrt (1.0 * f.axis.x * f.axis.x),
    Real.sqrt (1.0 * f.axis.y * f.axis.y),
    Real.sqrt (1.0 * f.axis.z * f.axis.z)⟩
  let d0 := Vec3.smul f.radius0 d
  let box1 : Box3 := ⟨Vec3.sub c d0, Vec3.add c d0⟩
  let d1 := Vec3.smul f.radius1 (d0.divideScalar f.radius0)
  let c1 := c.addScaled f.axis f.height
  let box2 : Box3 := ⟨Vec3.sub c1 d1, Vec3.add c1 d1⟩
  let res := box1.union box2
  (res, target.map (fun _ => res))

/-- Modelled from the spec: the union of two axis-aligned boxes, box `i`
centered on end-cap center `i` with component-wise half-extents
`radius_i * (|axis.x|, |axis.y|, |axis.z|)`. -/
def specBoundingBox (f : ConeFrustum) : Box3 :=
  let a : Vec3 := ⟨|f.axis.x|, |f.axis.y|, |f.axis.z|⟩
  let e0 := Vec3.smul f.radius0 a
  let e1 := Vec3.smul f.radius1 a
  let c1 := f.base.addScaled f.axis f.height
  Box3.union ⟨Vec3.sub f.base e0, Vec3.add f.base e0⟩
    ⟨Vec3.sub c1 e1, Vec3.add c1 e1⟩

/-- Failing input for claim C7: a cone with `radius0 = 0` and `radius1 = 1`. -/
def coneC7 : ConeFrustum := ⟨⟨0, 0, 0⟩, ⟨0, 1, 0⟩, 1, 0, 1⟩

/-- Claim C7 (code bug): on a frustum with `radius0 = 0`, the box the code
returns is not the union of the two end-cap boxes the claim describes: the
code rebuilds the second half-extent vector by dividing the first by
`radius0`, which for `radius0 = 0` loses the `radius1 * |axis|` extents
(the returned box stops at the far cap center `(0,1,0)` instead of
reaching `(0,2,0)`). -/
theorem C7_boundingBox_divzero :
    (coneC7.getBoundingBox none).1 = ⟨⟨0, 0, 0⟩, ⟨0, 1, 0⟩⟩ ∧
    specBoundingBox coneC7 = ⟨⟨0, 0, 0⟩, ⟨0, 2, 0⟩⟩ ∧
    (coneC7.getBoundingBox none).1 ≠ specBoundingBox coneC7 := by
  have h1 : (coneC7.getBoundingBox none).1 = ⟨⟨0, 0, 0⟩, ⟨0, 1, 0⟩⟩ := by
    norm_num [ConeFrustum.getBoundingBox, coneC7, Box3.union, Vec3.minV,
      Vec3.maxV, Vec3.smul, Vec3.sub, Vec3.add, Vec3.addScaled,
      Vec3.divideScalar, Vec3.mk.injEq, Box3.mk.injEq]
  have h2 : specBoundingBox coneC7 = ⟨⟨0, 0, 0⟩, ⟨0, 2, 0⟩⟩ := by
    norm_num [specBoundingBox, coneC7, Box3.union, Vec3.minV, Vec3.maxV,
      Vec3.smul, Vec3.sub, Vec3.add, Vec3.addScaled, Vec3.mk.injEq,
      Box3.mk.injEq]
  refine ⟨h1, h2, ?_⟩
  rw [h1, h2]
  intro h
  have := congrArg (fun b => b.max.y) h
  norm_num at this

/-- A ray: `origin + t * direction` (the external three.js `Ray`). -/
structure Ray where
  origin : Vec3
  direction : Vec3

/-- `deltaR = frustum.radius1 - frustum.radius0`. -/
def deltaR (f : ConeFrustum) : ℝ := f.radius1 - f.radius0

/-- `r = 1 + Math.pow(deltaR / frustum.height, 2)`. -/
def rCoef (f : ConeFrustum) : ℝ := 1 + (deltaR f / f.height) ^ 2

/-- `R = frustum.radius0 * deltaR / frustum.height`. -/
def RCoef (f : ConeFrustum) : ℝ := f.radius0 * deltaR f / f.height

/-- `D = ray.origin - frustum.base`. -/
def Dvec (ray : Ray) (f : ConeFrustum) : Vec3 := Vec3.sub ray.origin f.base

/-- `DdA = D.dot(frustum.axis)`. -/
def DdA (ray : Ray) (f : ConeFrustum) : ℝ := (Dvec ray f).dot f.axis

/-- `DdD = D.dot(D)`. -/
def DdD (ray : Ray) (f : ConeFrustum) : ℝ := (Dvec ray f).dot (Dvec ray f)

/-- `VdA = direction.dot(frustum.axis)`. -/
def VdA (ray : Ray) (f : ConeFrustum) : ℝ := ray.direction.dot f.axis

/-- `VdD = direction.dot(D)`. -/
def VdD (ray : Ray) (f : ConeFrustum) : ℝ := ray.direction.dot (Dvec ray f)

/-- `VdV = direction.dot(direction)`. -/
def VdV (ray : Ray) : ℝ := ray.direction.dot ray.direction

/-- `c0 = radius0*radius0 + 2*R*DdA + r*DdA*DdA - DdD`. -/
def c0coef (ray : Ray) (f : ConeFrustum) : ℝ :=
  f.radius0 * f.radius0 + 2 * RCoef f * DdA ray f +
    rCoef f * DdA ray f * DdA ray f - DdD ray f

/-- `c1 = R*VdA + r*DdA*VdA - VdD`. -/
def c1coef (ray : Ray) (f : ConeFrustum) : ℝ :=
  RCoef f * VdA ray f + rCoef f * DdA ray f * VdA ray f - VdD ray f

/-- `c2 = r*VdA*VdA - VdV`. -/
def c2coef (ray : Ray) (f : ConeFrustum) : ℝ :=
  rCoef f * VdA ray f * VdA ray f - VdV ray

/-- `discr = c1*c1 - c2*c0`. -/
def discr (ray : Ray) (f : ConeFrustum) : ℝ :=
  c1coef ray f * c1coef ray f - c2coef ray f * c0coef ray f

/-- Axial coordinate of the candidate at parameter `t`:
`d = frustum.axis.dot(D + t*direction)` (`u.copy(D); u.addScaledVector(
direction, t); d = frustum.axis.dot(u)`). -/
def axialAt (ray : Ray) (f : ConeFrustum) (t : ℝ) : ℝ :=
  f.axis.dot ((Dvec ray f).addScaled ray.direction t)

/-- Candidate intersection point at parameter `t`:
`target2.addVectors(frustum.base, u)` with `u = D + t*direction`. -/
def pointAt (ray : Ray) (f : ConeFrustum) (t : ℝ) : Vec3 :=
  f.base.add ((Dvec ray f).addScaled ray.direction t)

/-- The acceptance test applied to every candidate parameter:
`t >= 0 && d >= 0 && d <= frustum.height`. -/
def validT (ray : Ray) (f : ConeFrustum) (t : ℝ) : Prop :=
  0 ≤ t ∧ 0 ≤ axialAt ray f t ∧ axialAt ray f t ≤ f.height

instance (ray : Ray) (f : ConeFrustum) (t : ℝ) :
    Decidable (validT ray f t) := by
  unfold validT
  infer_instance

/-- First root of the quadratic branch: `t0 = (-c1 - Math.sqrt(discr)) / c2`. -/
def t0root (ray : Ray) (f : ConeFrustum) : ℝ :=
  (-c1coef ray f - Real.sqrt (discr ray f)) / c2coef ray f

/-- Second root of the quadratic branch: `t1 = (-c1 + Math.sqrt(discr)) / c2`. -/
def t1root (ray : Ray) (f : ConeFrustum) : ℝ :=
  (-c1coef ray f + Real.sqrt (discr ray f)) / c2coef ray f

/-- Double root of the `discr === 0` branch: `t = -c1 / c2`. -/
def tEq (ray : Ray) (f : ConeFrustum) : ℝ := -c1coef ray f / c2coef ray f

/-- Candidate parameter of the linear branch: `t = -2 * c0 / c1`. -/
def tLin (ray : Ray) (f : ConeFrustum) : ℝ :=
  -2 * c0coef ray f / c1coef ray f

/-- `Ray.prototype.intersectsConeFrustum`, as the value it returns (`none` is
the `null` no-intersection signal).  The source tests `c2 !== 0` first and
falls through to the linear cases; within the two-root branch the candidate
from `t0` is recorded first (`quantity` becomes 1) and the `t1` candidate
overwrites it exactly when `t1 >= 0 && (quantity === 0 || t0 > t1)` and its
axial coordinate is in range, so the returned vector is the `t1` point
when that replacement test passes, else the `t0` point when `t0` was
accepted, else `null`. -/
def intersectsConeFrustum (ray : Ray) (f : ConeFrustum) : Option Vec3 :=
  if c2coef ray f = 0 then
    if c1coef ray f = 0 then none
    else if validT ray f (tLin ray f) then some (pointAt ray f (tLin ray f))
    else none
  else
    if discr ray f < 0 then none
    else if discr ray f = 0 then
      if validT ray f (tEq ray f) then some (pointAt ray f (tEq ray f))
      else none
    else
      if validT ray f (t1root ray f) ∧
          (¬ validT ray f (t0root ray f) ∨ t0root ray f > t1root ray f) then
        some (pointAt ray f (t1root ray f))
      else if validT ray f (t0root ray f) then
        some (pointAt ray f (t0root ray f))
      else none

/-- Claim C1: in the two-root quadratic case, when both roots pass the
acceptance test the intersector returns the candidate point of the smaller
root - the `t1` candidate replaces the `t0` candidate exactly when `t0 > t1`
(or no candidate exists yet, which cannot happen here). -/
theorem C1_nearest_root (ray : Ray) (f : ConeFrustum)
    (hc2 : c2coef ray f ≠ 0) (hdisc : 0 < discr ray f)
    (h0 : validT ray f (t0root ray f)) (h1 : validT ray f (t1root ray f)) :
    intersectsConeFrustum ray f =
      some (pointAt ray f (min (t0root ray f) (t1root ray f))) := by
  rw [intersectsConeFrustum, if_neg hc2, if_neg (not_lt.mpr hdisc.le),
    if_neg (ne_of_gt hdisc)]
  by_cases hlt : t0root ray f > t1root ray f
  · rw [if_pos ⟨h1, Or.inr hlt⟩, min_eq_right hlt.le]
  · rw [if_neg (by
      rintro ⟨-, h | h⟩
      · exact h h0
      · exact hlt h), if_pos h0, min_eq_left (not_lt.mp hlt)]

/-- A cylinder of radius 1 and height 2 along the y axis. -/
def coneCyl : ConeFrustum := ⟨⟨0, 0, 0⟩, ⟨0, 1, 0⟩, 2, 1, 1⟩

/-- A ray entering that cylinder from the side: both quadratic roots are
valid, `t0 = 4 > t1 = 2`. -/
def rayC1 : Ray := ⟨⟨3, 1, 0⟩, ⟨-1, 0, 0⟩⟩

/-- Claim C1 witness: concrete input with two valid roots `t0 = 4 > t1 = 2`. -/
theorem C1_nearest_root_witness :
    c2coef rayC1 coneCyl ≠ 0 ∧ 0 < discr rayC1 coneCyl ∧
    validT rayC1 coneCyl (t0root rayC1 coneCyl) ∧
    validT rayC1 coneCyl (t1root rayC1 coneCyl) ∧
    intersectsConeFrustum rayC1 coneCyl =
      some (pointAt rayC1 coneCyl
        (min (t0root rayC1 coneCyl) (t1root rayC1 coneCyl))) := by
  have hc2 : c2coef rayC1 coneCyl = -1 := by
    norm_num [c2coef, rCoef, RCoef, deltaR, VdA, VdV, Vec3.dot, rayC1, coneCyl]
  have hc1 : c1coef rayC1 coneCyl = 3 := by
    norm_num [c1coef, rCoef, RCoef, deltaR, VdA, VdD, DdA, Dvec, Vec3.dot,
      Vec3.sub, rayC1, coneCyl]
  have hc0 : c0coef rayC1 coneCyl = -8 := by
    norm_num [c0coef, rCoef, RCoef, deltaR, DdA, DdD, Dvec, Vec3.dot,
      Vec3.sub, rayC1, coneCyl]
  have hd : discr rayC1 coneCyl = 1 := by
    rw [discr, hc0, hc1, hc2]; norm_num
  have hroot : Real.sqrt (discr rayC1 coneCyl) = 1 := by
    rw [hd, Real.sqrt_one]
  have ht0 : t0root rayC1 coneCyl = 4 := by
    rw [t0root, hroot, hc1, hc2]; norm_num
  have ht1 : t1root rayC1 coneCyl = 2 := by
    rw [t1root, hroot, hc1, hc2]; norm_num
  have hv0 : validT rayC1 coneCyl (t0root rayC1 coneCyl) := by
    rw [ht0]
    refine ⟨by norm_num, ?_, ?_⟩ <;>
      norm_num [axialAt, Dvec, Vec3.addScaled, Vec3.smul, Vec3.add, Vec3.sub,
        Vec3.dot, rayC1, coneCyl]
  have hv1 : validT rayC1 coneCyl (t1root rayC1 coneCyl) := by
    rw [ht1]
    refine ⟨by norm_num, ?_, ?_⟩ <;>
      norm_num [axialAt, Dvec, Vec3.addScaled, Vec3.smul, Vec3.add, Vec3.sub,
        Vec3.dot, rayC1, coneCyl]
  have hc2ne : c2coef rayC1 coneCyl ≠ 0 := by rw [hc2]; norm_num
  have hdpos : 0 < discr rayC1 coneCyl := by rw [hd]; norm_num
  exact ⟨hc2ne, hdpos, hv0, hv1,
    C1_nearest_root rayC1 coneCyl hc2ne hdpos hv0 hv1⟩

/-- Every candidate point is on the ray: `base + (D + t*direction)` is
`origin + t*direction`. -/
theorem pointAt_eq (ray : Ray) (f : ConeFrustum) (t : ℝ) :
    pointAt ray f t = ray.origin.add (Vec3.smul t ray.direction) := by
  ext <;> simp [pointAt, Dvec, Vec3.add, Vec3.sub, Vec3.smul,
    Vec3.addScaled] <;> ring

/-- The axial coordinate of a candidate point, recomputed from the point. -/
theorem axial_of_pointAt (ray : Ray) (f : ConeFrustum) (t : ℝ) :
    f.axis.dot (Vec3.sub (pointAt ray f t) f.base) = axialAt ray f t := by
  simp [pointAt, axialAt, Dvec, Vec3.add, Vec3.sub, Vec3.smul,
    Vec3.addScaled, Vec3.dot]

/-- Claim C2: whenever the intersector returns a point, that point is
`origin + t*direction` for some `t >= 0` and its axial coordinate
`axis . (point - base)` lies in `[0, height]`. -/
theorem C2_point_on_ray (ray : Ray) (f : ConeFrustum) (p : Vec3)
    (hdir : ray.direction ≠ (⟨0, 0, 0⟩ : Vec3)) (hne : f.empty = false)
    (hh : 0 < f.height) (hp : intersectsConeFrustum ray f = some p) :
    ∃ t, 0 ≤ t ∧ p = ray.origin.add (Vec3.smul t ray.direction) ∧
      0 ≤ f.axis.dot (Vec3.sub p f.base) ∧
      f.axis.dot (Vec3.sub p f.base) ≤ f.height := by
  have key : ∀ t : ℝ, validT ray f t → pointAt ray f t = p →
      ∃ t, 0 ≤ t ∧ p = ray.origin.add (Vec3.smul t ray.direction) ∧
        0 ≤ f.axis.dot (Vec3.sub p f.base) ∧
        f.axis.dot (Vec3.sub p f.base) ≤ f.height := by
    rintro t ⟨ht, hd0, hdh⟩ rfl
    exact ⟨t, ht, (pointAt_eq ray f t).symm ▸ rfl, by
      rw [axial_of_pointAt]; exact hd0, by
      rw [axial_of_pointAt]; exact hdh⟩
  rw [intersectsConeFrustum] at hp
  split_ifs at hp <;> simp only [Option.some.injEq, reduceCtorEq] at hp <;>
    first
      | exact key _ (by assumption) hp
      | exact key _ (by rename_i hacc; exact hacc.1) hp

/-- A ray tangent to the side of the cylinder `coneCyl` (the `discr === 0`
branch applies, with candidate parameter `t = 5`). -/
def rayC2 : Ray := ⟨⟨1, 1, -5⟩, ⟨0, 0, 1⟩⟩

/-- Claim C2 witness: the tangent ray's intersection point `(1,1,0)` is on the
ray at `t = 5` with axial coordinate `1` inside `[0, 2]`. -/
theorem C2_point_on_ray_witness :
    rayC2.direction ≠ (⟨0, 0, 0⟩ : Vec3) ∧ coneCyl.empty = false ∧
    0 < coneCyl.height ∧
    intersectsConeFrustum rayC2 coneCyl = some ⟨1, 1, 0⟩ ∧
    ∃ t, 0 ≤ t ∧
      (⟨1, 1, 0⟩ : Vec3) = rayC2.origin.add (Vec3.smul t rayC2.direction) ∧
      0 ≤ coneCyl.axis.dot (Vec3.sub ⟨1, 1, 0⟩ coneCyl.base) ∧
      coneCyl.axis.dot (Vec3.sub ⟨1, 1, 0⟩ coneCyl.base) ≤ coneCyl.height := by
  have hc2 : c2coef rayC2 coneCyl = -1 := by
    norm_num [c2coef, rCoef, RCoef, deltaR, VdA, VdV, Vec3.dot, rayC2, coneCyl]
  have hc1 : c1coef rayC2 coneCyl = 5 := by
    norm_num [c1coef, rCoef, RCoef, deltaR, VdA, VdD, DdA, Dvec, Vec3.dot,
      Vec3.sub, rayC2, coneCyl]
  have hc0 : c0coef rayC2 coneCyl = -25 := by
    norm_num [c0coef, rCoef, RCoef, deltaR, DdA, DdD, Dvec, Vec3.dot,
      Vec3.sub, rayC2, coneCyl]
  have hd : discr rayC2 coneCyl = 0 := by
    rw [discr, hc0, hc1, hc2]; norm_num
  have ht : tEq rayC2 coneCyl = 5 := by
    rw [tEq, hc1, hc2]; norm_num
  have hv : validT rayC2 coneCyl (tEq rayC2 coneCyl) := by
    rw [ht]
    refine ⟨by norm_num, ?_, ?_⟩ <;>
      norm_num [axialAt, Dvec, Vec3.addScaled, Vec3.smul, Vec3.add, Vec3.sub,
        Vec3.dot, rayC2, coneCyl]
  have hc2ne : c2coef rayC2 coneCyl ≠ 0 := by rw [hc2]; norm_num
  have hev : intersectsConeFrustum rayC2 coneCyl = some ⟨1, 1, 0⟩ := by
    rw [intersectsConeFrustum, if_neg hc2ne, if_neg (by rw [hd]; norm_num),
      if_pos hd, if_pos hv, ht]
    norm_num [pointAt, Dvec, Vec3.addScaled, Vec3.smul, Vec3.add, Vec3.sub,
      rayC2, coneCyl, Vec3.mk.injEq]
  have hdir : rayC2.direction ≠ (⟨0, 0, 0⟩ : Vec3) := by
    norm_num [rayC2, Vec3.mk.injEq]
  have hemp : coneCyl.empty = false := by
    norm_num [ConeFrustum.empty, coneCyl]
  have hht : (0 : ℝ) < coneCyl.height := by norm_num [coneCyl]
  exact ⟨hdir, hemp, hht, hev,
    C2_point_on_ray rayC2 coneCyl ⟨1, 1, 0⟩ hdir hemp hht hev⟩

/-- Claim C8: when `c2 == 0` and `c1 != 0` the single candidate parameter is
`t = -2*c0/c1` - a point (namely `origin + t*direction`) is returned exactly
when `t >= 0` and the axial coordinate `d = axis.(D + t*direction)` lies in
`[0, height]`; when `c2 == 0` and `c1 == 0` the no-intersection signal is
returned. -/
theorem C8_linear_case (ray : Ray) (f : ConeFrustum)
    (hc2 : c2coef ray f = 0) :
    (c1coef ray f ≠ 0 →
      ((∃ p, intersectsConeFrustum ray f = some p) ↔
        (0 ≤ -2 * c0coef ray f / c1coef ray f ∧
         0 ≤ axialAt ray f (-2 * c0coef ray f / c1coef ray f) ∧
         axialAt ray f (-2 * c0coef ray f / c1coef ray f) ≤ f.height)) ∧
      ∀ p, intersectsConeFrustum ray f = some p →
        p = ray.origin.add (Vec3.smul
          (-2 * c0coef ray f / c1coef ray f) ray.direction)) ∧
    (c1coef ray f = 0 → intersectsConeFrustum ray f = none) := by
  have htl : tLin ray f = -2 * c0coef ray f / c1coef ray f := rfl
  constructor
  · intro hc1
    rw [intersectsConeFrustum, if_pos hc2, if_neg hc1]
    by_cases hv : validT ray f (tLin ray f)
    · rw [if_pos hv]
      refine ⟨⟨fun _ => ?_, fun _ => ⟨_, rfl⟩⟩, fun p hp => ?_⟩
      · rw [← htl]
        exact hv
      · rw [← Option.some.inj hp, pointAt_eq, htl]
    · rw [if_neg hv]
      refine ⟨⟨fun h => absurd h (by simp), fun hcond => absurd ?_ hv⟩,
        fun p hp => absurd hp (by simp)⟩
      rw [← htl] at hcond
      exact hcond
  · intro hc1
    rw [intersectsConeFrustum, if_pos hc2, if_pos hc1]

/-- A cone (radius 1 down to 0, height 1 along the y axis) for the linear
branch. -/
def coneC8 : ConeFrustum := ⟨⟨0, 0, 0⟩, ⟨0, 1, 0⟩, 1, 1, 0⟩

/-- A ray parallel to a generator line of that cone: `c2 = 0`, `c1 = -3`. -/
def rayC8 : Ray := ⟨⟨1, -1, 0⟩, ⟨1, 1, 0⟩⟩

/-- Claim C8 witness: concrete linear-branch input with `c2 = 0`, `c1 = -3`,
candidate `t = 2` accepted. -/
theorem C8_linear_case_witness :
    c2coef rayC8 coneC8 = 0 ∧ c1coef rayC8 coneC8 ≠ 0 ∧
    intersectsConeFrustum rayC8 coneC8 =
      some (rayC8.origin.add (Vec3.smul
        (-2 * c0coef rayC8 coneC8 / c1coef rayC8 coneC8) rayC8.direction)) := by
  have hc2v : c2coef rayC8 coneC8 = 0 := by
    norm_num [c2coef, rCoef, RCoef, deltaR, VdA, VdV, Vec3.dot, rayC8, coneC8]
  have hc1v : c1coef rayC8 coneC8 = -3 := by
    norm_num [c1coef, rCoef, RCoef, deltaR, VdA, VdD, DdA, Dvec, Vec3.dot,
      Vec3.sub, rayC8, coneC8]
  have hc0v : c0coef rayC8 coneC8 = 3 := by
    norm_num [c0coef, rCoef, RCoef, deltaR, DdA, DdD, Dvec, Vec3.dot,
      Vec3.sub, rayC8, coneC8]
  have hform : -2 * c0coef rayC8 coneC8 / c1coef rayC8 coneC8 = 2 := by
    rw [hc0v, hc1v]; norm_num
  have hc1ne : c1coef rayC8 coneC8 ≠ 0 := by rw [hc1v]; norm_num
  obtain ⟨hiff, hpt⟩ := (C8_linear_case rayC8 coneC8 hc2v).1 hc1ne
  have hcond : 0 ≤ -2 * c0coef rayC8 coneC8 / c1coef rayC8 coneC8 ∧
      0 ≤ axialAt rayC8 coneC8
        (-2 * c0coef rayC8 coneC8 / c1coef rayC8 coneC8) ∧
      axialAt rayC8 coneC8
        (-2 * c0coef rayC8 coneC8 / c1coef rayC8 coneC8) ≤ coneC8.height := by
    rw [hform]
    refine ⟨by norm_num, ?_, ?_⟩ <;>
      norm_num [axialAt, Dvec, Vec3.addScaled, Vec3.smul, Vec3.add, Vec3.sub,
        Vec3.dot, rayC8, coneC8]
  obtain ⟨p, hp⟩ := hiff.mpr hcond
  refine ⟨hc2v, hc1ne, ?_⟩
  rw [hp]
  exact congrArg some (hpt p hp)

/-- A heap of three.js `Vector3` objects: JavaScript object references are
modelled as allocation indices into a store.  Needed to state the aliasing
behavior of the constructor and `fromCapsule`. -/
structure VecHeap where
  store : Nat → Vec3
  next : Nat

/-- Overwrite the vector object at reference `r` (an in-place mutation such
as `normalize()` or `subVectors`). -/
def VecHeap.write (h : VecHeap) (r : Nat) (v : Vec3) : VecHeap :=
  ⟨fun i => if i = r then v else h.store i, h.next⟩

/-- Allocate a fresh vector object (`new Vector3(...)`), returning the new
heap and the fresh reference. -/
def VecHeap.alloc (h : VecHeap) (v : Vec3) : VecHeap × Nat :=
  (⟨fun i => if i = h.next then v else h.store i, h.next + 1⟩, h.next)

/-- A `ConeFrustum` object whose `base` and `axis` fields are references to
heap-allocated vectors, as in the JavaScript object graph. -/
structure FrustumObj where
  baseRef : Nat
  axisRef : Nat
  height : ℝ
  radius0 : ℝ
  radius1 : ℝ

/-- Heap-level embedding of the constructor: `this.base = base || new
Vector3(); this.axis = axis || new Vector3( 0, 1, 0 );
this.axis.normalize();` - the supplied references are stored as-is, and
`normalize()` mutates the axis object in place. -/
def constructObj (h : VecHeap) (baseArg axisArg : Option Nat)
    (heightArg radius0Arg radius1Arg : Option ℝ) : VecHeap × FrustumObj :=
  let pb := match baseArg with
    | some b => (h, b)
    | none => h.alloc ⟨0, 0, 0⟩
  let pa := match axisArg with
    | some a => (pb.1, a)
    | none => pb.1.alloc ⟨0, 1, 0⟩
  let h2 := pa.1.write pa.2 ((pa.1.store pa.2).normalize)
  (h2, ⟨pb.2, pa.2, jsOrNum heightArg 1, jsOrNum radius0Arg 0,
    jsOrNum radius1Arg 0⟩)

/-- Heap-level embedding of `fromCapsule`: `let axis = new Vector3();
axis.subVectors( center1, center0 ); return new ConeFrustum( center0,
axis.clone().normalize(), axis.length(), radius0, radius1 )` - `center0` is
passed through by reference, `axis` and its clone are fresh objects, and
`normalize()` mutates the clone in place before the constructor runs. -/
def fromCapsuleObj (h : VecHeap) (c0 : Nat) (r0 : ℝ) (c1 : Nat) (r1 : ℝ) :
    VecHeap × FrustumObj :=
  let p1 := h.alloc ⟨0, 0, 0⟩
  let h1 := p1.1.write p1.2 (Vec3.sub (p1.1.store c1) (p1.1.store c0))
  let p2 := h1.alloc (h1.store p1.2)
  let h2 := p2.1.write p2.2 ((p2.1.store p2.2).normalize)
  constructObj h2 (some c0) (some p2.2) (some ((h2.store p1.2).length))
    (some r0) (some r1)

/-- A one-object heap holding the vector `(0, 3, 0)` at reference 0. -/
def heapC10 : VecHeap := ⟨fun _ => ⟨0, 3, 0⟩, 1⟩

/-- Claim C10, counterexample: constructing a frustum with the caller's vector
`(0,3,0)` (reference 0) as `axis` normalizes that very object in place - after
construction the caller's vector holds `(0,1,0)`, and the frustum's axis
field is the same reference 0, so the supplied vector is both mutated and
shared. -/
theorem C10_alias_counterexample :
    (constructObj heapC10 none (some 0) none none none).1.store 0 ≠
      heapC10.store 0 ∧
    (constructObj heapC10 none (some 0) none none none).2.axisRef = 0 := by
  have hn : ((⟨0, 3, 0⟩ : Vec3)).normalize = (⟨0, 1, 0⟩ : Vec3) := by
    have hl : ((⟨0, 3, 0⟩ : Vec3)).length = 3 := by
      rw [Vec3.length, Vec3.dot]
      norm_num
      rw [show (9 : ℝ) = 3 ^ 2 by norm_num, Real.sqrt_sq (by norm_num)]
    rw [Vec3.normalize, Vec3.divideScalar, hl, if_neg (by norm_num)]
    ext <;> norm_num [Vec3.smul]
  constructor
  · intro hcontra
    have h1 : (constructObj heapC10 none (some 0) none none
        none).1.store 0 = (⟨0, 1, 0⟩ : Vec3) := by
      simp [constructObj, VecHeap.alloc, VecHeap.write, heapC10, hn]
    rw [h1] at hcontra
    have := congrArg Vec3.y hcontra
    norm_num [heapC10] at this
  · rfl

/-- Claim C10 (amended): `copy` deep-copies, but the constructor stores the
supplied `base` and `axis` references as-is (so mutating the caller's vectors
afterwards changes the frustum) and normalizes the supplied axis object in
place; `fromCapsule` aliases `center0` as the base while its axis is a
freshly allocated object distinct from both centers. -/
theorem C10_aliasing (h : VecHeap) (b a : Nat) (hA r0A r1A : Option ℝ)
    (c0 c1 : Nat) (r0 r1 : ℝ) (hc0 : c0 < h.next) (hc1 : c1 < h.next) :
    (constructObj h (some b) (some a) hA r0A r1A).2.baseRef = b ∧
    (constructObj h (some b) (some a) hA r0A r1A).2.axisRef = a ∧
    (constructObj h (some b) (some a) hA r0A r1A).1.store a =
      (h.store a).normalize ∧
    (b ≠ a → (constructObj h (some b) (some a) hA r0A r1A).1.store b =
      h.store b) ∧
    (fromCapsuleObj h c0 r0 c1 r1).2.baseRef = c0 ∧
    (fromCapsuleObj h c0 r0 c1 r1).2.axisRef ≠ c0 ∧
    (fromCapsuleObj h c0 r0 c1 r1).2.axisRef ≠ c1 := by
  refine ⟨rfl, rfl, ?_, ?_, rfl, ?_, ?_⟩
  · simp [constructObj, VecHeap.write]
  · intro hne
    simp [constructObj, VecHeap.write, hne]
  · show h.next + 1 ≠ c0
    omega
  · show h.next + 1 ≠ c1
    omega

/-- A two-object heap: `(0,0,0)` at reference 0, `(0,0,3)` at reference 1. -/
def heapC10w : VecHeap :=
  ⟨fun i => if i = 0 then ⟨0, 0, 0⟩ else ⟨0, 0, 3⟩, 2⟩

/-- Claim C10 witness: a concrete two-object heap (`(0,0,0)` at reference 0,
`(0,0,3)` at reference 1). -/
theorem C10_aliasing_witness :
    (0 : Nat) < heapC10w.next ∧ (1 : Nat) < heapC10w.next ∧
    ((constructObj heapC10w (some 0) (some 1) none none none).2.baseRef = 0 ∧
     (constructObj heapC10w (some 0) (some 1) none none none).2.axisRef = 1 ∧
     (constructObj heapC10w (some 0) (some 1) none none none).1.store 1 =
       (heapC10w.store 1).normalize ∧
     ((0 : Nat) ≠ 1 →
       (constructObj heapC10w (some 0) (some 1) none none none).1.store 0 =
         heapC10w.store 0) ∧
     (fromCapsuleObj heapC10w 0 1 1 2).2.baseRef = 0 ∧
     (fromCapsuleObj heapC10w 0 1 1 2).2.axisRef ≠ 0 ∧
     (fromCapsuleObj heapC10w 0 1 1 2).2.axisRef ≠ 1) :=
  ⟨by norm_num [heapC10w], by norm_num [heapC10w],
    C10_aliasing heapC10w 0 1 none none none 0 1 1 2
      (by norm_num [heapC10w]) (by norm_num [heapC10w])⟩
